import Mathlib

/-!
Shallow embedding of the gesture-recognition pipeline and streaming-session
orchestration of the odyssey-storybook repository, together with proofs of
its specification claims.  Definitions are translated from the source files
`src/api/stt.js` (the App component and the serverless transcription
handler), `src/server/index.js` and `src/src/lib/odyssey.ts`.  Times are
modelled as natural numbers of milliseconds.
-/

namespace Odyssey

/-- GestureLabel: the closed set of recognised gestures
(type GestureLabel in the App component). -/
inductive GestureLabel where
  | hello
  | thumbs_up
  | victory
  | namaste
deriving DecidableEq, Repr

/-- GESTURE_DELAY_MS constant of the App component. -/
def GESTURE_DELAY_MS : Nat := 1200

/-- GEMINI_GESTURE_COOLDOWN_MS constant of the App component. -/
def GEMINI_GESTURE_COOLDOWN_MS : Nat := 8000

/-- VISION_POLL_MS constant of the App component. -/
def VISION_POLL_MS : Nat := 1200

/-- GESTURE_PROMPTS record of the App component, as a total lookup on the
closed label set. -/
def GESTURE_PROMPTS : GestureLabel → String
  | .hello => "do hello"
  | .thumbs_up => "do thumbs up"
  | .victory => "do victory sign"
  | .namaste => "do namaste"

/-- parseGestureLabel: the own-key hits of the GESTURE_PROMPTS lookup, that
is the strings that denote a member of the typed closed label set.  This is
only the typed view of the guard in classifyGestureFromFrame: JavaScript
property lookup also walks the prototype chain, so the full truthiness test
of the source, modelled below by gesturePromptsTruthy over raw strings, is
strictly wider than this parse (see OBJECT_PROTOTYPE_KEYS). -/
def parseGestureLabel (s : String) : Option GestureLabel :=
  if s = "hello" then some .hello
  else if s = "thumbs_up" then some .thumbs_up
  else if s = "victory" then some .victory
  else if s = "namaste" then some .namaste
  else none

/-- DebounceScheduler state: pendingGestureRef together with the armed
debounce timer.  The timer is modelled as the pair of the label captured by
the setTimeout closure and the absolute deadline at which it fires; none
means no timer is armed. -/
structure DebounceState where
  pendingGesture : Option GestureLabel
  pendingTimer : Option (GestureLabel × Nat)
deriving DecidableEq, Repr

/-- DebounceState.start: both refs hold null before any observation. -/
def DebounceState.start : DebounceState :=
  { pendingGesture := none, pendingTimer := none }

/-- scheduleGesturePrompt: stores the label in pendingGestureRef, clears any
armed timer with clearTimeout, and arms a fresh setTimeout whose deadline is
GESTURE_DELAY_MS after the observation time.  Note that the source performs
the clear-and-rearm unconditionally, whether or not the label matches the
currently pending one. -/
def scheduleGesturePrompt (label : GestureLabel) (now : Nat) (s : DebounceState) :
    DebounceState :=
  let s1 : DebounceState := { s with pendingGesture := some label }
  let s2 : DebounceState := { s1 with pendingTimer := none }
  { s2 with pendingTimer := some (label, now + GESTURE_DELAY_MS) }

/-- The setTimeout callback body inside scheduleGesturePrompt: when the armed
timer fires, if pendingGestureRef no longer holds the captured label the
callback returns without effect; otherwise it dispatches the prompt for the
label and clears the pending state.  Returns the new state and the list of
confirmed-gesture events emitted, each tagged with the absolute time it
fired. -/
def fireTimer (s : DebounceState) : DebounceState × List (GestureLabel × Nat) :=
  match s.pendingTimer with
  | none => (s, [])
  | some (label, deadline) =>
      if s.pendingGesture = some label then
        ({ pendingGesture := none, pendingTimer := none }, [(label, deadline)])
      else
        ({ s with pendingTimer := none }, [])

/-- One observation step of the debounce scheduler on the event loop: if the
armed timer expires no later than the observation time it fires first, then
scheduleGesturePrompt runs for the observed label. -/
def stepObserve (s : DebounceState) (label : GestureLabel) (t : Nat) :
    DebounceState × List (GestureLabel × Nat) :=
  match s.pendingTimer with
  | some (_, d) =>
      if d ≤ t then
        let fired := fireTimer s
        (scheduleGesturePrompt label t fired.1, fired.2)
      else
        (scheduleGesturePrompt label t s, [])
  | none => (scheduleGesturePrompt label t s, [])

/-- Runs the debounce scheduler over a time-ordered list of confirmed label
observations, draining the armed timer at the end; returns the final state
and all confirmed-gesture events emitted with their firing times. -/
def runDebounce (s : DebounceState) :
    List (GestureLabel × Nat) → DebounceState × List (GestureLabel × Nat)
  | [] => fireTimer s
  | (label, t) :: rest =>
      let step := stepObserve s label t
      let tail := runDebounce step.1 rest
      (tail.1, step.2 ++ tail.2)

/-- C1, refuted at a concrete input: with thumbs_up already pending and its
timer armed with deadline 1200, observing thumbs_up again at t = 400 does
not leave the timer untouched (its deadline becomes 1600); and in the
scenario of observations at t = 0, 400, 800 the single confirmed event does
not fire at t = 1200. -/
theorem C1_counterexample :
    (scheduleGesturePrompt .thumbs_up 400
        { pendingGesture := some .thumbs_up,
          pendingTimer := some (.thumbs_up, 1200) }).pendingTimer
      ≠ some (.thumbs_up, 1200) ∧
    (runDebounce DebounceState.start
        [(.thumbs_up, 0), (.thumbs_up, 400), (.thumbs_up, 800)]).2
      ≠ [(.thumbs_up, 1200)] := by
  decide

/-- C1 as amended: observing a label that matches the pending one clears the
existing timer and re-arms it with deadline GESTURE_DELAY_MS after the new
observation; repeated observations of the same label still emit exactly one
confirmed event, but at the deadline of the last observation (t = 2000 in
the t = 0, 400, 800 scenario), not the first. -/
theorem C1_debounce_reschedules (s : DebounceState) (label : GestureLabel) (now : Nat)
    (h : s.pendingGesture = some label) :
    (scheduleGesturePrompt label now s).pendingTimer
        = some (label, now + GESTURE_DELAY_MS) ∧
    (runDebounce DebounceState.start
        [(.thumbs_up, 0), (.thumbs_up, 400), (.thumbs_up, 800)]).2
      = [(.thumbs_up, 2000)] := by
  constructor
  · rfl
  · decide

/-- C1 witness: the amended statement instantiated with thumbs_up pending at
deadline 1200 and a matching observation at t = 400. -/
theorem C1_debounce_reschedules_witness :
    (scheduleGesturePrompt .thumbs_up 400
        { pendingGesture := some .thumbs_up,
          pendingTimer := some (.thumbs_up, 1200) }).pendingTimer
      = some (.thumbs_up, 400 + GESTURE_DELAY_MS) :=
  (C1_debounce_reschedules
      { pendingGesture := some .thumbs_up, pendingTimer := some (.thumbs_up, 1200) }
      .thumbs_up 400 rfl).1

/-- GovernorState: the three refs that gate outbound classification calls in
classifyGestureFromFrame, namely lastGeminiAtRef (lastCallAt),
visionInFlightRef (inFlight) and visionRetryAtRef (retryNotBeforeAt).  All
three refs start at 0 / false. -/
structure GovernorState where
  lastCallAt : Nat
  inFlight : Bool
  retryNotBeforeAt : Nat
deriving DecidableEq, Repr

/-- GovernorState.start: the ref values at gesture-loop start. -/
def GovernorState.start : GovernorState :=
  { lastCallAt := 0, inFlight := false, retryNotBeforeAt := 0 }

/-- Admission gate of classifyGestureFromFrame: the three early returns on
the in-flight flag, the retry deadline and the cooldown, followed by
marking in flight and stamping lastCallAt when the attempt is admitted.
Returns whether the attempt was admitted together with the updated state.
The source compares with JavaScript number subtraction; truncated Nat
subtraction denies in exactly the same cases because a clock value earlier
than lastCallAt truncates to 0, which is below the cooldown. -/
def tryAcquire (now : Nat) (g : GovernorState) : Bool × GovernorState :=
  if g.inFlight then (false, g)
  else if now < g.retryNotBeforeAt then (false, g)
  else if now - g.lastCallAt < GEMINI_GESTURE_COOLDOWN_MS then (false, g)
  else (true, { g with inFlight := true, lastCallAt := now })

/-- Outcome of the fetch to the gesture-vision endpoint as observed by
classifyGestureFromFrame: a 429 rate-limit response carrying an optional
retryAfterMs, any other non-ok response, a successful response carrying an
optional label field, or a thrown network error. -/
inductive ClassifyOutcome where
  | rateLimited (retryAfterMs : Option Nat)
  | notOk
  | success (labelField : Option String)
  | networkError
deriving DecidableEq, Repr

/-- The response-handling branch of classifyGestureFromFrame on a successful
response: data.label is looked up in GESTURE_PROMPTS and only a key of the
record reaches scheduleGesturePrompt; any other value, including a missing
field, leaves the debounce state alone. -/
def handleClassificationResult (labelField : Option String) (now : Nat)
    (d : DebounceState) : DebounceState :=
  match labelField with
  | none => d
  | some str =>
      match parseGestureLabel str with
      | some label => scheduleGesturePrompt label now d
      | none => d

/-- Completion of an admitted classification call: the 429 branch stamps
visionRetryAtRef with the completion time plus retryAfterMs (defaulting to
10000), the success branch feeds the label to the debounce scheduler, the
not-ok and thrown branches do nothing, and the finally clause clears the
in-flight flag on every path.  The third component is the error surfaced to
the user by this handler; no branch of the source calls setError, so it is
none on every path.  The success branch here uses the typed closed-set view
of the label guard; its raw-string refinement, which also admits member
names inherited from Object.prototype, is handleClassificationResultRaw
below, and no theorem about this definition depends on the success
branch. -/
def completeClassification (outcome : ClassifyOutcome) (completeAt : Nat)
    (g : GovernorState) (d : DebounceState) :
    GovernorState × DebounceState × Option String :=
  match outcome with
  | .rateLimited r =>
      ({ g with retryNotBeforeAt := completeAt + r.getD 10000, inFlight := false },
       d, none)
  | .notOk => ({ g with inFlight := false }, d, none)
  | .success labelField =>
      ({ g with inFlight := false }, handleClassificationResult labelField completeAt d, none)
  | .networkError => ({ g with inFlight := false }, d, none)

/-- classifyGestureFromFrame as a whole: the admission gate at call time now,
and, when admitted, the completion of the remote call at time completeAt
with the given outcome. -/
def classifyGestureFromFrame (now : Nat) (outcome : ClassifyOutcome)
    (completeAt : Nat) (g : GovernorState) (d : DebounceState) :
    GovernorState × DebounceState × Option String :=
  match tryAcquire now g with
  | (false, g1) => (g1, d, none)
  | (true, g1) => completeClassification outcome completeAt g1 d

/-- Event on the single-threaded loop as seen by the governor: a capture-loop
attempt to classify at a given time, or the completion of the outstanding
remote call with its outcome. -/
inductive GovEvent where
  | attempt (now : Nat)
  | complete (outcome : ClassifyOutcome) (now : Nat)

/-- Governor system state for trace reasoning: the ref state, the debounce
state, and the number of remote calls currently outstanding. -/
structure GovSys where
  gov : GovernorState
  debounce : DebounceState
  outstanding : Nat

/-- GovSys.start: gesture-loop start, no call outstanding. -/
def GovSys.start : GovSys :=
  { gov := GovernorState.start, debounce := DebounceState.start, outstanding := 0 }

/-- One event of the governor trace: an attempt runs the admission gate and,
when admitted, issues a remote call; a completion event resolves the
outstanding call (and is a no-op when none is outstanding, since the
completion callback only exists for an issued call). -/
def govStep (sys : GovSys) (e : GovEvent) : GovSys :=
  match e with
  | .attempt now =>
      match tryAcquire now sys.gov with
      | (true, g1) => { sys with gov := g1, outstanding := sys.outstanding + 1 }
      | (false, g1) => { sys with gov := g1 }
  | .complete outcome now =>
      if sys.outstanding = 0 then sys
      else
        let r := completeClassification outcome now sys.gov sys.debounce
        { gov := r.1, debounce := r.2.1, outstanding := sys.outstanding - 1 }

/-- Runs the governor over a list of events. -/
def govRun (sys : GovSys) (es : List GovEvent) : GovSys :=
  es.foldl govStep sys

/-- Coupling invariant for the governor trace: at most one call outstanding,
and the in-flight flag tracks exactly whether one is outstanding. -/
def GovInv (sys : GovSys) : Prop :=
  sys.outstanding ≤ 1 ∧ sys.gov.inFlight = decide (sys.outstanding = 1)

lemma tryAcquire_granted (now : Nat) (g : GovernorState)
    (h : (tryAcquire now g).1 = true) :
    g.inFlight = false ∧ g.retryNotBeforeAt ≤ now ∧
      GEMINI_GESTURE_COOLDOWN_MS ≤ now - g.lastCallAt ∧
      (tryAcquire now g).2 = { g with inFlight := true, lastCallAt := now } := by
  by_cases h1 : g.inFlight
  · simp [tryAcquire, h1] at h
  · by_cases h2 : now < g.retryNotBeforeAt
    · simp [tryAcquire, h1, h2] at h
    · by_cases h3 : now - g.lastCallAt < GEMINI_GESTURE_COOLDOWN_MS
      · simp [tryAcquire, h1, h2, h3] at h
      · exact ⟨by simpa using h1, by omega, by omega, by simp [tryAcquire, h1, h2, h3]⟩

lemma tryAcquire_denied (now : Nat) (g : GovernorState)
    (h : (tryAcquire now g).1 = false) :
    (tryAcquire now g).2 = g := by
  by_cases h1 : g.inFlight
  · simp [tryAcquire, h1]
  · by_cases h2 : now < g.retryNotBeforeAt
    · simp [tryAcquire, h1, h2]
    · by_cases h3 : now - g.lastCallAt < GEMINI_GESTURE_COOLDOWN_MS
      · simp [tryAcquire, h1, h2, h3]
      · simp [tryAcquire, h1, h2, h3] at h

lemma completeClassification_clears (outcome : ClassifyOutcome) (t : Nat)
    (g : GovernorState) (d : DebounceState) :
    (completeClassification outcome t g d).1.inFlight = false := by
  cases outcome <;> rfl

lemma govStep_inv (sys : GovSys) (e : GovEvent) (h : GovInv sys) :
    GovInv (govStep sys e) := by
  obtain ⟨hle, hflag⟩ := h
  cases e with
  | attempt now =>
      rcases hg : tryAcquire now sys.gov with ⟨granted, g1⟩
      cases granted with
      | true =>
          have hgr := tryAcquire_granted now sys.gov (by rw [hg])
          have hout : sys.outstanding = 0 := by
            rw [hgr.1] at hflag
            by_contra hne
            have h1 : sys.outstanding = 1 := by omega
            simp [h1] at hflag
          have hg1 : g1 = { sys.gov with inFlight := true, lastCallAt := now } := by
            have h2 := hgr.2.2.2
            rw [hg] at h2
            exact h2
          have hstep : govStep sys (.attempt now)
              = { sys with gov := g1, outstanding := sys.outstanding + 1 } := by
            simp [govStep, hg]
          rw [hstep]
          exact ⟨show sys.outstanding + 1 ≤ 1 by omega, by simp [hg1, hout]⟩
      | false =>
          have hden := tryAcquire_denied now sys.gov (by rw [hg])
          have hg1 : g1 = sys.gov := by rw [hg] at hden; exact hden
          have hstep : govStep sys (.attempt now) = { sys with gov := g1 } := by
            simp [govStep, hg]
          rw [hstep, hg1]
          exact ⟨hle, hflag⟩
  | complete outcome now =>
      by_cases hz : sys.outstanding = 0
      · have hstep : govStep sys (.complete outcome now) = sys := by
          simp [govStep, hz]
        rw [hstep]
        exact ⟨hle, hflag⟩
      · have h1 : sys.outstanding = 1 := by omega
        have hstep : govStep sys (.complete outcome now)
            = { gov := (completeClassification outcome now sys.gov sys.debounce).1,
                debounce := (completeClassification outcome now sys.gov sys.debounce).2.1,
                outstanding := sys.outstanding - 1 } := by
          simp [govStep, hz]
        rw [hstep]
        exact ⟨show sys.outstanding - 1 ≤ 1 by omega,
          by simp [completeClassification_clears, h1]⟩

lemma govRun_inv (es : List GovEvent) (sys : GovSys) (h : GovInv sys) :
    GovInv (govRun sys es) := by
  induction es generalizing sys with
  | nil => exact h
  | cons e rest ih => exact ih (govStep sys e) (govStep_inv sys e h)

/-- C3: the RateGovernor admission invariant.  An admitted attempt at time
now implies the in-flight flag was clear, the retry deadline had passed and
the cooldown had elapsed, and the admitted attempt stamps lastCallAt with
now and sets the flag; completion clears the flag on every outcome; and
over every event sequence from gesture-loop start at most one remote call
is outstanding at any time. -/
theorem C3_rate_governor :
    (∀ (now : Nat) (g : GovernorState), (tryAcquire now g).1 = true →
        g.inFlight = false ∧ g.retryNotBeforeAt ≤ now ∧
        GEMINI_GESTURE_COOLDOWN_MS ≤ now - g.lastCallAt ∧
        (tryAcquire now g).2 = { g with inFlight := true, lastCallAt := now }) ∧
    (∀ (outcome : ClassifyOutcome) (t : Nat) (g : GovernorState) (d : DebounceState),
        (completeClassification outcome t g d).1.inFlight = false) ∧
    (∀ es : List GovEvent, (govRun GovSys.start es).outstanding ≤ 1) :=
  ⟨tryAcquire_granted, completeClassification_clears,
   fun es => (govRun_inv es GovSys.start ⟨by decide, by decide⟩).1⟩

/-- C3 witness: at a concrete state with both windows elapsed, the attempt
at t = 9000 is admitted, stamps lastCallAt and sets the flag; its completion
clears the flag; and a one-event trace keeps at most one call outstanding. -/
theorem C3_rate_governor_witness :
    (tryAcquire 9000 GovernorState.start).2
        = { lastCallAt := 9000, inFlight := true, retryNotBeforeAt := 0 } ∧
    (completeClassification .networkError 9500
        { lastCallAt := 9000, inFlight := true, retryNotBeforeAt := 0 }
        DebounceState.start).1.inFlight = false ∧
    (govRun GovSys.start [.attempt 9000]).outstanding ≤ 1 :=
  ⟨(C3_rate_governor.1 9000 GovernorState.start (by decide)).2.2.2,
   C3_rate_governor.2.1 .networkError 9500
     { lastCallAt := 9000, inFlight := true, retryNotBeforeAt := 0 } DebounceState.start,
   C3_rate_governor.2.2 [.attempt 9000]⟩

/-- C5: rate-limit backoff.  A 429 completion at time t with retryAfterMs r
stamps retryNotBeforeAt with t plus r (10000 when the field is absent),
surfaces no error and leaves the debounce state alone; every attempt made
while now is below retryNotBeforeAt is denied; and in the concrete Scenario
B run (call admitted and rate-limited at t = 1000000 with retryAfterMs
10000) every attempt before t = 1010000 is denied, even at t = 1008000
where the 8000 ms cooldown alone would admit it. -/
theorem C5_rate_limit_backoff :
    (∀ (r : Option Nat) (t : Nat) (g : GovernorState) (d : DebounceState),
        (completeClassification (.rateLimited r) t g d).1.retryNotBeforeAt
            = t + r.getD 10000 ∧
        (completeClassification (.rateLimited r) t g d).2.2 = none ∧
        (completeClassification (.rateLimited r) t g d).2.1 = d) ∧
    (∀ (now : Nat) (g : GovernorState), now < g.retryNotBeforeAt →
        (tryAcquire now g).1 = false) ∧
    (∀ now : Nat, now < 1010000 →
        (tryAcquire now
          (classifyGestureFromFrame 1000000 (.rateLimited (some 10000)) 1000000
            { lastCallAt := 992000, inFlight := false, retryNotBeforeAt := 0 }
            DebounceState.start).1).1 = false) ∧
    GEMINI_GESTURE_COOLDOWN_MS ≤ 1008000 -
      (classifyGestureFromFrame 1000000 (.rateLimited (some 10000)) 1000000
        { lastCallAt := 992000, inFlight := false, retryNotBeforeAt := 0 }
        DebounceState.start).1.lastCallAt := by
  refine ⟨fun r t g d => ⟨rfl, rfl, rfl⟩, ?_, ?_, by decide⟩
  · intro now g hlt
    by_cases h1 : g.inFlight
    · simp [tryAcquire, h1]
    · simp [tryAcquire, h1, hlt]
  · intro now hlt
    have hg : (classifyGestureFromFrame 1000000 (.rateLimited (some 10000)) 1000000
        { lastCallAt := 992000, inFlight := false, retryNotBeforeAt := 0 }
        DebounceState.start).1
        = { lastCallAt := 1000000, inFlight := false, retryNotBeforeAt := 1010000 } := by
      decide
    rw [hg]
    simp [tryAcquire, hlt]

/-- C5 witness: the blocking conjuncts instantiated at t = 1008000, where
the cooldown alone would admit the attempt but the retry deadline denies
it, and the general denial conjunct at a concrete governor state. -/
theorem C5_rate_limit_backoff_witness :
    (tryAcquire 9000
        { lastCallAt := 0, inFlight := false, retryNotBeforeAt := 9500 }).1 = false ∧
    (tryAcquire 1008000
        (classifyGestureFromFrame 1000000 (.rateLimited (some 10000)) 1000000
          { lastCallAt := 992000, inFlight := false, retryNotBeforeAt := 0 }
          DebounceState.start).1).1 = false :=
  ⟨C5_rate_limit_backoff.2.1 9000
      { lastCallAt := 0, inFlight := false, retryNotBeforeAt := 9500 } (by decide),
   C5_rate_limit_backoff.2.2.1 1008000 (by decide)⟩

/-- OBJECT_PROTOTYPE_KEYS: the member names every plain object literal
inherits from the base object prototype.  Property lookup on the
GESTURE_PROMPTS record yields a truthy function or object value at each of
them, although none is an own key of the record. -/
def OBJECT_PROTOTYPE_KEYS : List String :=
  ["constructor", "hasOwnProperty", "isPrototypeOf", "propertyIsEnumerable",
   "toLocaleString", "toString", "valueOf", "__proto__", "__defineGetter__",
   "__defineSetter__", "__lookupGetter__", "__lookupSetter__"]

/-- gesturePromptsTruthy: the full JavaScript truthiness test performed by
the guard in classifyGestureFromFrame on a raw label string: the label must
itself be truthy (the empty string, a member of neither list, is falsy) and
the property lookup on GESTURE_PROMPTS must hit a truthy value, which it
does at the four own keys and, through the prototype chain, at every member
name inherited from the base object prototype. -/
def gesturePromptsTruthy (s : String) : Bool :=
  (s == "hello" || s == "thumbs_up" || s == "victory" || s == "namaste") ||
    OBJECT_PROTOTYPE_KEYS.contains s

/-- RawDebounceState: pendingGestureRef and the armed timer holding the raw
string the classifier response carried, exactly as the source closures
capture it; DebounceState is the typed view of this state when only
closed-set labels occur. -/
structure RawDebounceState where
  pendingGesture : Option String
  pendingTimer : Option (String × Nat)
deriving DecidableEq, Repr

/-- scheduleGesturePromptRaw: scheduleGesturePrompt on the raw string it is
actually passed: stores it in pendingGestureRef, clears any armed timer and
arms a fresh one GESTURE_DELAY_MS from now. -/
def scheduleGesturePromptRaw (label : String) (now : Nat) (s : RawDebounceState) :
    RawDebounceState :=
  let s1 : RawDebounceState := { s with pendingGesture := some label }
  let s2 : RawDebounceState := { s1 with pendingTimer := none }
  { s2 with pendingTimer := some (label, now + GESTURE_DELAY_MS) }

/-- handleClassificationResultRaw: the data.label handling of
classifyGestureFromFrame with JavaScript property-lookup semantics: any
raw string passing gesturePromptsTruthy reaches scheduleGesturePrompt, and
a missing label field or a falsy lookup leaves the state alone. -/
def handleClassificationResultRaw (labelField : Option String) (now : Nat)
    (s : RawDebounceState) : RawDebounceState :=
  match labelField with
  | none => s
  | some str =>
      if gesturePromptsTruthy str then scheduleGesturePromptRaw str now s else s

lemma gesturePromptsTruthy_eq_true_iff (s : String) :
    gesturePromptsTruthy s = true ↔
      s ∈ (["hello", "thumbs_up", "victory", "namaste"] : List String) ∨
      s ∈ OBJECT_PROTOTYPE_KEYS := by
  simp [gesturePromptsTruthy, OBJECT_PROTOTYPE_KEYS, List.contains, List.elem_eq_mem]
  tauto

/-- C7, refuted at a concrete input: the string toString lies outside the
closed set, yet the prototype-chain lookup makes the guard truthy, so a
single such reading overwrites a pending thumbs_up and re-arms the
confirmation timer, cancelling the stabilizing gesture. -/
theorem C7_counterexample :
    "toString" ∉ (["hello", "thumbs_up", "victory", "namaste"] : List String) ∧
    gesturePromptsTruthy "toString" = true ∧
    handleClassificationResultRaw (some "toString") 5000
        { pendingGesture := some "thumbs_up", pendingTimer := some ("thumbs_up", 1200) }
      = { pendingGesture := some "toString", pendingTimer := some ("toString", 6200) } := by
  decide

/-- C7 as amended: a classification result outside the closed set never
triggers dispatch and never alters the debounce state provided it is also
not a member name inherited from the base object prototype; in particular
the literal string none and a missing label field leave the pending label
and its confirmation timer unchanged.  A string naming an inherited member,
although outside the closed set, passes the truthiness guard and does reset
the pending label and timer. -/
theorem C7_none_never_dispatches (str : String) (now : Nat) (s : RawDebounceState)
    (h1 : str ∉ (["hello", "thumbs_up", "victory", "namaste"] : List String))
    (h2 : str ∉ OBJECT_PROTOTYPE_KEYS) :
    gesturePromptsTruthy str = false ∧
    handleClassificationResultRaw (some str) now s = s ∧
    handleClassificationResultRaw none now s = s := by
  have ht : gesturePromptsTruthy str = false := by
    cases hb : gesturePromptsTruthy str with
    | false => rfl
    | true =>
        rcases (gesturePromptsTruthy_eq_true_iff str).1 hb with hm | hm
        · exact absurd hm h1
        · exact absurd hm h2
  exact ⟨ht, by simp [handleClassificationResultRaw, ht], rfl⟩

/-- C7 witness: the literal string none is outside both the closed set and
the inherited member names, and a successful response carrying it leaves a
concrete pending thumbs_up and its timer untouched. -/
theorem C7_none_never_dispatches_witness :
    gesturePromptsTruthy "none" = false ∧
    handleClassificationResultRaw (some "none") 5000
        { pendingGesture := some "thumbs_up", pendingTimer := some ("thumbs_up", 1200) }
      = { pendingGesture := some "thumbs_up", pendingTimer := some ("thumbs_up", 1200) } :=
  ⟨(C7_none_never_dispatches "none" 5000
      { pendingGesture := some "thumbs_up", pendingTimer := some ("thumbs_up", 1200) }
      (by decide) (by decide)).1,
   (C7_none_never_dispatches "none" 5000
      { pendingGesture := some "thumbs_up", pendingTimer := some ("thumbs_up", 1200) }
      (by decide) (by decide)).2.1⟩

/-- GestureLoopState: the mutable state owned by the gesture pipeline in the
App component: the gesturesEnabled flag and status line, the scheduled
requestAnimationFrame callback held in detectFrameRef (none when no capture
is scheduled), whether the camera element holds a live srcObject, and the
debounce and governor refs. -/
structure GestureLoopState where
  gesturesEnabled : Bool
  gestureStatus : String
  detectFrame : Option Nat
  cameraActive : Bool
  debounce : DebounceState
  governor : GovernorState
deriving DecidableEq, Repr

/-- disableGestures: clears the enabled flag and status line, cancels the
scheduled capture callback when one is pending, and stops the camera tracks
and drops the srcObject when the camera is live.  The source touches no
other ref: pendingGestureRef, pendingTimerRef and the governor refs are
left as they are. -/
def disableGestures (s : GestureLoopState) : GestureLoopState :=
  let s1 : GestureLoopState :=
    { s with gesturesEnabled := false, gestureStatus := "Gesture detection off" }
  let s2 : GestureLoopState :=
    match s1.detectFrame with
    | some _ => { s1 with detectFrame := none }
    | none => s1
  if s2.cameraActive then { s2 with cameraActive := false } else s2

/-- C4, refuted at a concrete input: with a victory gesture pending, its
debounce timer armed and a classification call in flight, disableGestures
leaves the debounce timer armed, the pending label set and the governor
state unreset. -/
theorem C4_counterexample :
    (disableGestures
        { gesturesEnabled := true, gestureStatus := "Gesture detection on",
          detectFrame := some 7, cameraActive := true,
          debounce := { pendingGesture := some .victory,
                        pendingTimer := some (.victory, 4200) },
          governor := { lastCallAt := 3000, inFlight := true,
                        retryNotBeforeAt := 13000 } }).debounce.pendingTimer ≠ none ∧
    (disableGestures
        { gesturesEnabled := true, gestureStatus := "Gesture detection on",
          detectFrame := some 7, cameraActive := true,
          debounce := { pendingGesture := some .victory,
                        pendingTimer := some (.victory, 4200) },
          governor := { lastCallAt := 3000, inFlight := true,
                        retryNotBeforeAt := 13000 } }).governor
      ≠ GovernorState.start := by
  decide

/-- C4 as amended: disableGestures cancels the scheduled capture callback and
releases the camera resource, and is safe to call when no capture or timer
is pending, but it does not cancel the debounce timer and does not reset
the PendingGesture or GovernorState refs: both are left untouched. -/
theorem C4_disable_gestures (s : GestureLoopState) :
    (disableGestures s).gesturesEnabled = false ∧
    (disableGestures s).detectFrame = none ∧
    (disableGestures s).cameraActive = false ∧
    (disableGestures s).debounce = s.debounce ∧
    (disableGestures s).governor = s.governor := by
  unfold disableGestures
  rcases s with ⟨en, st, df, cam, d, g⟩
  cases df <;> cases cam <;> simp

/-- StreamState enum of src/src/lib/odyssey.ts. -/
inductive StreamState where
  | idle
  | starting
  | streaming
  | ended
  | error
deriving DecidableEq, Repr

/-- SessionState: the request-token ref together with the stream view owned
by the App component (streamState, isStreamingReady and the error line). -/
structure SessionState where
  requestIdCurrent : Nat
  streamState : StreamState
  isStreamingReady : Bool
  error : Option String
deriving DecidableEq, Repr

/-- Synchronous prefix of the slide-change effect: increments requestIdRef
to mint the token owned by this stream-start sequence and resets the stream
view before the asynchronous continuation starts. -/
def mintStreamStart (s : SessionState) : Nat × SessionState :=
  let requestId := s.requestIdCurrent + 1
  (requestId,
   { s with requestIdCurrent := requestId, streamState := .starting,
            isStreamingReady := false, error := none })

/-- A state write performed by the stream-start continuation: the source
only ever writes through setStreamState, setIsStreamingReady and setError. -/
inductive StateWrite where
  | setStreamState (st : StreamState)
  | setIsStreamingReady (b : Bool)
  | setError (msg : String)
deriving DecidableEq, Repr

/-- Trace of one execution of the run continuation: whether it invoked
startStream on the streaming collaborator, how many newer tokens the
environment minted while it was suspended, and every state write it
performed. -/
structure RunTrace where
  calledStartStream : Bool
  minted : Nat
  writes : List StateWrite
deriving DecidableEq, Repr

/-- The run continuation of the slide-change effect together with the catch
handler attached to it.  `token` is the requestId captured by the closure
and `cur` the value of requestIdRef.current when the continuation starts.
The continuation suspends three times: on the endStream await (during
which the environment mints mintA newer tokens), on the loadImageFile await
(mintB tokens; loadResult is its outcome), and, if reached, on the
startStream await (mintC tokens; startResult is its outcome).  After the
image load it compares requestIdRef.current against the captured token and
abandons the sequence on mismatch; the catch handler repeats the same
comparison before writing the error state. -/
def runContinuation (token cur : Nat) (mintA mintB : Nat)
    (loadResult : Except String Unit) (mintC : Nat)
    (startResult : Except String Unit) : RunTrace :=
  let cur1 := cur + mintA
  match loadResult with
  | .error msg =>
      let cur2 := cur1 + mintB
      if cur2 ≠ token then
        { calledStartStream := false, minted := mintA + mintB, writes := [] }
      else
        { calledStartStream := false, minted := mintA + mintB,
          writes := [.setStreamState .error, .setIsStreamingReady false,
                     .setError msg] }
  | .ok _ =>
      let cur2 := cur1 + mintB
      if cur2 ≠ token then
        { calledStartStream := false, minted := mintA + mintB, writes := [] }
      else
        let cur3 := cur2 + mintC
        match startResult with
        | .ok _ =>
            { calledStartStream := true, minted := mintA + mintB + mintC, writes := [] }
        | .error msg =>
            if cur3 ≠ token then
              { calledStartStream := true, minted := mintA + mintB + mintC, writes := [] }
            else
              { calledStartStream := true, minted := mintA + mintB + mintC,
                writes := [.setStreamState .error, .setIsStreamingReady false,
                           .setError msg] }

/-- C2, refuted at a concrete input: the sequence owning token 1 loads its
image with no newer token minted, passes the token check, and a newer token
is then minted while its startStream call is still in flight.  A newer
token was therefore minted before the stream start completed, yet the
continuation did call startStream. -/
theorem C2_counterexample :
    (runContinuation (mintStreamStart
        { requestIdCurrent := 0, streamState := .idle,
          isStreamingReady := false, error := none }).1
        1 0 0 (.ok ()) 1 (.ok ())).minted = 1 ∧
    (runContinuation (mintStreamStart
        { requestIdCurrent := 0, streamState := .idle,
          isStreamingReady := false, error := none }).1
        1 0 0 (.ok ()) 1 (.ok ())).calledStartStream = true := by
  decide

/-- C2 as amended: when the continuation starts with requestIdRef equal to
its captured token, a newer token minted before the post-image-load token
check prevents the startStream call and every state write; and whenever at
least one newer token is minted at any suspension point before the
continuation completes, the continuation performs no state write at all
(the stale failure path is also discarded silently).  A token minted only
while the already-issued startStream call is in flight does not retract
that call. -/
theorem C2_token_guard (token cur mintA mintB mintC : Nat)
    (loadResult startResult : Except String Unit)
    (hcur : cur = token) :
    (0 < mintA + mintB →
        (runContinuation token cur mintA mintB loadResult mintC
            startResult).calledStartStream = false ∧
        (runContinuation token cur mintA mintB loadResult mintC
            startResult).writes = []) ∧
    (0 < (runContinuation token cur mintA mintB loadResult mintC
            startResult).minted →
        (runContinuation token cur mintA mintB loadResult mintC
            startResult).writes = []) := by
  subst hcur
  cases loadResult with
  | error msg =>
      by_cases hab : mintA + mintB = 0
      · constructor
        · intro hpos; omega
        · intro hpos
          have : (runContinuation cur cur mintA mintB (.error msg) mintC
              startResult).minted = mintA + mintB := by
            simp [runContinuation]
            split <;> rfl
          omega
      · have hne : cur + mintA + mintB ≠ cur := by omega
        have : runContinuation cur cur mintA mintB (.error msg) mintC startResult
            = { calledStartStream := false, minted := mintA + mintB, writes := [] } := by
          simp [runContinuation, hne]
        rw [this]
        exact ⟨fun _ => ⟨rfl, rfl⟩, fun _ => rfl⟩
  | ok u =>
      cases u
      by_cases hab : mintA + mintB = 0
      · have ha : mintA = 0 := by omega
        have hb : mintB = 0 := by omega
        subst ha; subst hb
        constructor
        · intro hpos; omega
        · intro hpos
          cases startResult with
          | ok v =>
              cases v
              simp [runContinuation]
          | error msg =>
              have hmint : (runContinuation cur cur 0 0 (.ok ()) mintC
                  (.error msg)).minted = mintC := by
                simp [runContinuation]
                split <;> rfl
              rw [hmint] at hpos
              have hne : cur + 0 + 0 + mintC ≠ cur := by omega
              have hc : ¬ mintC = 0 := by omega
              simp [runContinuation, hne, hc]
      · have hne : cur + mintA + mintB ≠ cur := by omega
        have : runContinuation cur cur mintA mintB (.ok ()) mintC startResult
            = { calledStartStream := false, minted := mintA + mintB, writes := [] } := by
          simp [runContinuation, hne]
        rw [this]
        exact ⟨fun _ => ⟨rfl, rfl⟩, fun _ => rfl⟩

/-- C2 witness: the amended statement instantiated with token 1 and one
newer token minted during the image load; the continuation neither calls
startStream nor writes any state. -/
theorem C2_token_guard_witness :
    (runContinuation 1 1 0 1 (.ok ()) 0 (.ok ())).calledStartStream = false ∧
    (runContinuation 1 1 0 1 (.ok ()) 0 (.ok ())).writes = [] :=
  (C2_token_guard 1 1 0 1 0 (.ok ()) (.ok ()) rfl).1 (by decide)

/-- isJsWhitespace: the character class stripped by the JavaScript trim
method on strings: the WhiteSpace production (tab, vertical tab, form feed,
space, no-break space, the Ogham space mark, the Unicode space separators
U+2000 through U+200A, the narrow no-break space, the medium mathematical
space, the ideographic space and the byte-order mark) together with the
LineTerminator production (line feed, carriage return, line separator and
paragraph separator). -/
def isJsWhitespace (c : Char) : Bool :=
  c.toNat = 0x9 || c.toNat = 0xA || c.toNat = 0xB || c.toNat = 0xC ||
  c.toNat = 0xD || c.toNat = 0x20 || c.toNat = 0xA0 || c.toNat = 0x1680 ||
  (decide (0x2000 ≤ c.toNat) && decide (c.toNat ≤ 0x200A)) ||
  c.toNat = 0x2028 || c.toNat = 0x2029 || c.toNat = 0x202F ||
  c.toNat = 0x205F || c.toNat = 0x3000 || c.toNat = 0xFEFF

/-- jsTrim: the JavaScript trim method on strings, which strips the
isJsWhitespace characters from both ends, written by structural recursion
over the character list so that it evaluates inside the kernel. -/
def jsTrim (s : String) : String :=
  ⟨((s.data.dropWhile isJsWhitespace).reverse.dropWhile isJsWhitespace).reverse⟩

/-- handleInteract of the App component: returns the prompt forwarded to the
interact operation of the streaming collaborator, or none when no outbound
call is made.  The source returns early when serviceRef holds no service or
isStreamingReady is false, trims the override prompt (falling back to the
slide call-to-action text), and returns early when the trimmed prompt is
the empty string. -/
def handleInteract (hasService isStreamingReady : Bool) (slideCta : String)
    (promptOverride : Option String) : Option String :=
  if !hasService || !isStreamingReady then none
  else
    let prompt := jsTrim (promptOverride.getD slideCta)
    if prompt = "" then none
    else some prompt

/-- C6: dispatch gating.  No outbound interact call is made when the session
is not streaming-ready or no service is attached, none is made when the
trimmed prompt is empty, and otherwise exactly the trimmed prompt is
forwarded. -/
theorem C6_dispatch_gating (hasService ready : Bool) (cta : String)
    (ov : Option String) :
    (ready = false → handleInteract hasService ready cta ov = none) ∧
    (hasService = false → handleInteract hasService ready cta ov = none) ∧
    (jsTrim (ov.getD cta) = "" → handleInteract hasService ready cta ov = none) ∧
    (hasService = true → ready = true → jsTrim (ov.getD cta) ≠ "" →
        handleInteract hasService ready cta ov = some (jsTrim (ov.getD cta))) := by
  refine ⟨?_, ?_, ?_, ?_⟩
  · intro h; subst h; cases hasService <;> simp [handleInteract]
  · intro h; subst h; simp [handleInteract]
  · intro h
    cases hasService <;> cases ready <;> simp [handleInteract, h]
  · intro hs hr hp
    subst hs; subst hr
    simp [handleInteract, hp]

/-- C6 witness: with a service attached and the session streaming-ready, an
override of two padded words is forwarded trimmed; a prompt consisting of a
single no-break space is whitespace-only and produces no call; and with the
session not ready the padded prompt produces no call either. -/
theorem C6_dispatch_gating_witness :
    handleInteract true false "Make a wish" (some "  hello there  ") = none ∧
    handleInteract true true "Make a wish" (some "\u00A0") = none ∧
    handleInteract true true "Make a wish" (some "  hello there  ")
      = some "hello there" := by
  refine ⟨(C6_dispatch_gating true false "Make a wish" (some "  hello there  ")).1 rfl,
    (C6_dispatch_gating true true "Make a wish" (some "\u00A0")).2.2.1 (by decide), ?_⟩
  have h := (C6_dispatch_gating true true "Make a wish" (some "  hello there  ")).2.2.2
    rfl rfl (by decide)
  rw [show jsTrim ((some "  hello there  ").getD "Make a wish") = "hello there" by decide] at h
  exact h

/-- The catch handler attached to the interact call inside handleInteract,
applied to the outcome of that call: a rejected interact only writes the
error line; a fulfilled one writes nothing. -/
def applyInteractOutcome (outcome : Except String Unit) (s : SessionState) :
    SessionState :=
  match outcome with
  | .ok _ => s
  | .error msg => { s with error := some msg }

/-- C8: a failed interact dispatch surfaces the failure on the error line
and leaves streamState and the streaming-ready flag exactly as they were,
for every prompt the dispatcher actually forwarded. -/
theorem C8_failed_interact_frame (hasService ready : Bool) (cta : String)
    (ov : Option String) (p msg : String) (s : SessionState)
    (h : handleInteract hasService ready cta ov = some p) :
    (applyInteractOutcome (.error msg) s).streamState = s.streamState ∧
    (applyInteractOutcome (.error msg) s).isStreamingReady = s.isStreamingReady ∧
    (applyInteractOutcome (.error msg) s).error = some msg ∧
    (applyInteractOutcome (.error msg) s).requestIdCurrent = s.requestIdCurrent :=
  ⟨rfl, rfl, rfl, rfl⟩

/-- C8 witness: a dispatched call-to-action prompt whose interact call fails
writes only the error line of a concrete streaming session. -/
theorem C8_failed_interact_frame_witness :
    (applyInteractOutcome (.error "boom")
        { requestIdCurrent := 3, streamState := .streaming,
          isStreamingReady := true, error := none }).streamState = .streaming ∧
    (applyInteractOutcome (.error "boom")
        { requestIdCurrent := 3, streamState := .streaming,
          isStreamingReady := true, error := none }).isStreamingReady = true :=
  ⟨(C8_failed_interact_frame true true "Make a wish" none "Make a wish" "boom"
      { requestIdCurrent := 3, streamState := .streaming,
        isStreamingReady := true, error := none } (by decide)).1,
   (C8_failed_interact_frame true true "Make a wish" none "Make a wish" "boom"
      { requestIdCurrent := 3, streamState := .streaming,
        isStreamingReady := true, error := none } (by decide)).2.1⟩

/-- Response of the transcription boundary handler in src/api/stt.js: the
HTTP status and the optional error and text fields of the JSON body. -/
structure SttResponse where
  status : Nat
  error : Option String
  text : Option String
deriving DecidableEq, Repr

/-- Outcome of the generateContent call made by the transcription handler:
a response whose optional text field is trimmed before being returned, or a
thrown failure. -/
inductive TranscribeOutcome where
  | ok (responseText : Option String)
  | failed
deriving DecidableEq, Repr

/-- handler of src/api/stt.js: rejects non-POST methods with 405, a missing
server key with 500, answers 400 when the multipart audio buffer is missing
or empty, 500 when reading the multipart body or the transcription call
throws, and otherwise 200 with the trimmed transcript (an absent or
all-whitespace model text becomes the empty string). -/
def sttHandler (method : String) (apiKeyPresent : Bool)
    (audioRead : Except String (List Nat)) (transcription : TranscribeOutcome) :
    SttResponse :=
  if method ≠ "POST" then
    { status := 405, error := some "Method not allowed", text := none }
  else if !apiKeyPresent then
    { status := 500, error := some "Missing GEMINI_API_KEY on server.", text := none }
  else
    match audioRead with
    | .error _ => { status := 500, error := some "Transcription failed.", text := none }
    | .ok buffer =>
        if buffer.length = 0 then
          { status := 400, error := some "Missing audio file.", text := none }
        else
          match transcription with
          | .ok responseText =>
              { status := 200, error := none,
                text := some (jsTrim (responseText.getD "")) }
          | .failed =>
              { status := 500, error := some "Transcription failed.", text := none }

/-- MulterFile: req.file as produced by the multer memory storage at the
express transcription route: the buffered bytes and the reported mimetype.
A zero-byte uploaded part still yields such a file object, only with an
empty buffer. -/
structure MulterFile where
  buffer : List Nat
  mimetype : String
deriving DecidableEq, Repr

/-- expressSttRoute: the POST transcription route of src/server/index.js:
500 when the server key is missing, 400 when multer produced no req.file at
all, and otherwise a transcription attempt ending in 200 with the trimmed
text or 500 when the boundary throws.  The guard tests only for the absence
of req.file, so a present file whose buffer is empty proceeds to the
boundary. -/
def expressSttRoute (apiKeyPresent : Bool) (file : Option MulterFile)
    (transcription : TranscribeOutcome) : SttResponse :=
  if !apiKeyPresent then
    { status := 500, error := some "Missing GEMINI_API_KEY on server.", text := none }
  else
    match file with
    | none => { status := 400, error := some "Missing audio file.", text := none }
    | some _ =>
        match transcription with
        | .ok responseText =>
            { status := 200, error := none,
              text := some (jsTrim (responseText.getD "")) }
        | .failed =>
            { status := 500, error := some "Transcription failed.", text := none }

/-- C9, refuted at concrete inputs: at the express route a present zero-byte
audio file passes the req.file check, so the empty payload is never
answered 400 (the boundary outcome decides between 200 and 500); and at the
serverless handler a POST whose body cannot be read as multipart at all, so
that the audio is missing, is answered 500 from the thrown parse, not
400. -/
theorem C9_counterexample :
    (expressSttRoute true (some { buffer := [], mimetype := "audio/webm" })
        .failed).status ≠ 400 ∧
    (expressSttRoute true (some { buffer := [], mimetype := "audio/webm" })
        (.ok (some "hi"))).status ≠ 400 ∧
    (sttHandler "POST" true (.error "Unexpected end of form") .failed).status
      ≠ 400 := by
  decide

/-- C9 as amended: at the serverless handler, a configured POST whose parsed
multipart audio buffer is missing or empty is answered 400 with an error
body and no transcript field, while a body the multipart parser rejects is
answered 500; at the express route only a wholly absent req.file is
answered 400, and a present file, even zero-byte, is never answered 400;
and on every path of both handlers a transcript field is present only on a
200 success, which carries no error field. -/
theorem C9_stt_empty_audio (audioRead : Except String (List Nat))
    (tr : TranscribeOutcome) (hempty : audioRead = .ok []) :
    sttHandler "POST" true audioRead tr
        = { status := 400, error := some "Missing audio file.", text := none } ∧
    (∀ (e : String) (tr2 : TranscribeOutcome),
        sttHandler "POST" true (.error e) tr2
          = { status := 500, error := some "Transcription failed.", text := none }) ∧
    (∀ tr2 : TranscribeOutcome,
        expressSttRoute true none tr2
          = { status := 400, error := some "Missing audio file.", text := none }) ∧
    (∀ (f : MulterFile) (tr2 : TranscribeOutcome),
        (expressSttRoute true (some f) tr2).status ≠ 400) ∧
    (∀ (method : String) (key : Bool) (ar : Except String (List Nat))
        (tr2 : TranscribeOutcome),
        (sttHandler method key ar tr2).text.isSome = true →
        (sttHandler method key ar tr2).status = 200 ∧
        (sttHandler method key ar tr2).error = none) ∧
    (∀ (key : Bool) (f : Option MulterFile) (tr2 : TranscribeOutcome),
        (expressSttRoute key f tr2).text.isSome = true →
        (expressSttRoute key f tr2).status = 200 ∧
        (expressSttRoute key f tr2).error = none) := by
  subst hempty
  refine ⟨rfl, fun e tr2 => rfl, fun tr2 => rfl, ?_, ?_, ?_⟩
  · intro f tr2
    cases tr2 <;> simp [expressSttRoute]
  · intro method key ar tr2 htext
    unfold sttHandler at *
    by_cases hm : method ≠ "POST"
    · simp [hm] at htext
    · cases key with
      | false => simp [hm] at htext
      | true =>
          cases ar with
          | error e => simp [hm] at htext
          | ok buffer =>
              by_cases hb : buffer.length = 0
              · simp [hm, hb] at htext
              · cases tr2 with
                | ok responseText => simp [hm, hb]
                | failed => simp [hm, hb] at htext
  · intro key f tr2 htext
    cases key with
    | false => simp [expressSttRoute] at htext
    | true =>
        cases f with
        | none => simp [expressSttRoute] at htext
        | some f =>
            cases tr2 with
            | ok responseText => simp [expressSttRoute]
            | failed => simp [expressSttRoute] at htext

/-- C9 witness: the empty parsed buffer yields the 400 response at the
serverless handler, an absent req.file yields it at the express route, and
a successful transcription of hi yields a 200 whose body has a text field
and no error field. -/
theorem C9_stt_empty_audio_witness :
    sttHandler "POST" true (.ok []) .failed
        = { status := 400, error := some "Missing audio file.", text := none } ∧
    expressSttRoute true none .failed
        = { status := 400, error := some "Missing audio file.", text := none } ∧
    (sttHandler "POST" true (.ok [1, 2]) (.ok (some "hi"))).status = 200 :=
  ⟨(C9_stt_empty_audio (.ok []) .failed rfl).1,
   (C9_stt_empty_audio (.ok []) .failed rfl).2.2.1 .failed,
   ((C9_stt_empty_audio (.ok []) .failed rfl).2.2.2.2.1 "POST" true (.ok [1, 2])
      (.ok (some "hi")) (by decide)).1⟩

/-- Blob produced by the image fetch in loadImageFile: its bytes and the
MIME type it reports (the empty string when it reports none). -/
structure BlobRec where
  bytes : List Nat
  type : String
deriving DecidableEq, Repr

/-- The fetch response observed by loadImageFile. -/
structure HttpImageResponse where
  ok : Bool
  status : Nat
  statusText : String
  blob : BlobRec
deriving DecidableEq, Repr

/-- File value constructed by loadImageFile. -/
structure FileRec where
  bytes : List Nat
  name : String
  type : String
deriving DecidableEq, Repr

/-- MAX_IMAGE_BYTES constant of src/src/lib/odyssey.ts. -/
def MAX_IMAGE_BYTES : Nat := 25 * 1024 * 1024

/-- loadImageFile of src/src/lib/odyssey.ts: throws when the response is not
ok, throws when the blob exceeds MAX_IMAGE_BYTES (the source message also
interpolates the size in megabytes, elided here), and otherwise builds a
File over the blob bytes whose type falls back to image/png when the blob
reports none. -/
def loadImageFile (resp : HttpImageResponse) (name : String := "slide-image") :
    Except String FileRec :=
  if !resp.ok then
    .error ("Failed to load image: " ++ toString resp.status ++ " " ++ resp.statusText)
  else if MAX_IMAGE_BYTES < resp.blob.bytes.length then
    .error "Image is too large. Max is 25 MB."
  else
    .ok { bytes := resp.blob.bytes, name := name,
          type := if resp.blob.type = "" then "image/png" else resp.blob.type }

/-- C10: loadImageFile throws on a non-ok response, throws when the fetched
body exceeds 25 * 1024 * 1024 bytes, and otherwise returns a File holding
the fetched bytes whose MIME type is the blob type, defaulting to image/png
when the blob reports no type. -/
theorem C10_load_image_file (resp : HttpImageResponse) (name : String) :
    (resp.ok = false → ∃ e, loadImageFile resp name = .error e) ∧
    (resp.ok = true → MAX_IMAGE_BYTES < resp.blob.bytes.length →
        ∃ e, loadImageFile resp name = .error e) ∧
    (resp.ok = true → resp.blob.bytes.length ≤ MAX_IMAGE_BYTES →
        loadImageFile resp name
          = .ok { bytes := resp.blob.bytes, name := name,
                  type := if resp.blob.type = "" then "image/png"
                          else resp.blob.type }) := by
  refine ⟨?_, ?_, ?_⟩
  · intro h
    refine ⟨"Failed to load image: " ++ toString resp.status ++ " " ++ resp.statusText, ?_⟩
    simp [loadImageFile, h]
  · intro h hbig
    refine ⟨"Image is too large. Max is 25 MB.", ?_⟩
    simp [loadImageFile, h, hbig]
  · intro h hsmall
    have hnb : ¬ MAX_IMAGE_BYTES < resp.blob.bytes.length := by omega
    simp [loadImageFile, h, hnb]

/-- C10 witness: a 404 response throws, and a small ok response whose blob
reports no type yields a File over its bytes typed image/png. -/
theorem C10_load_image_file_witness :
    (∃ e, loadImageFile
        { ok := false, status := 404, statusText := "Not Found",
          blob := { bytes := [], type := "" } } "slide-1.png" = .error e) ∧
    loadImageFile
        { ok := true, status := 200, statusText := "OK",
          blob := { bytes := [7, 7], type := "" } } "slide-1.png"
      = .ok { bytes := [7, 7], name := "slide-1.png", type := "image/png" } :=
  ⟨(C10_load_image_file
      { ok := false, status := 404, statusText := "Not Found",
        blob := { bytes := [], type := "" } } "slide-1.png").1 rfl,
   by
    have h := (C10_load_image_file
        { ok := true, status := 200, statusText := "OK",
          blob := { bytes := [7, 7], type := "" } } "slide-1.png").2.2 rfl (by decide)
    simpa using h⟩

end Odyssey
